import Mathlib

/-!
Verification of the connection lifecycle coordinator of this repository
(`sql/platform/connection/common/connectionService`) and of the data-source
tree items (`extensions/sql-database-projects/src/models/tree/dataSourceTreeItem.ts`).

The connection service implementation file itself is not part of the sources
available here; only its test suite
(`src/sql/platform/connection/test/common/connectionService.test.ts`) is.
The service is therefore modelled from the specification (sections 3, 4.3,
4.4 and 7 of the design document), as an executable state machine over pure
Lean data.  Single-threaded cooperative concurrency is embedded by making
every suspension point an explicit step: `connectStart` performs the
synchronous part of `connect()` (up to and including the provider's
initiation result), and `completeSignal` delivers the provider's
out-of-band completion event, resolving all registered waiters.
-/

namespace ConnService

/-- Modelled from the spec: the `ConnectionState` enumeration of the
connection service (missing from the available sources); states
`DISCONNECTED`, `CONNECTING`, `CONNECTED`, `DISCONNECTING`, initial state
`DISCONNECTED`. -/
inductive ConnectionState
  | DISCONNECTED
  | CONNECTING
  | CONNECTED
  | DISCONNECTING
deriving DecidableEq, Repr

/-- Modelled from the spec: the result type of `connect()`:
`{failed: bool, errorMessage?: string}`. -/
structure ConnectResult where
  failed : Bool
  errorMessage : Option String
deriving DecidableEq, Repr

/-- Modelled from the spec: one logical connection owned by the Registry.
`objId` embeds JavaScript object identity (the Registry stamps every
Connection it constructs with a fresh serial number); `waiters` is the
per-identifier pending-operation table: local ids of the callers (connect
invocations and `onDidConnect` observers) awaiting the in-flight connect
attempt; `lastResult` caches the result of the most recent completed
attempt. -/
structure Connection where
  objId : Nat
  identifier : String
  provider : String
  options : List (String × String)
  state : ConnectionState
  waiters : List Nat
  lastResult : Option ConnectResult
deriving DecidableEq, Repr

/-- Modelled from the spec: the state of the `ConnectionService` registry.
`catalog` is the provider-catalog view (capability registrations currently
valid); `providers` is the registry's own provider table; `connections`
the identifier-keyed Connection cache; `nextObjId` the object-identity
counter; the two call counters record how often the provider's `connect`
and `disconnect` initiation calls were invoked. -/
structure ConnectionService where
  catalog : List String
  providers : List String
  connections : List Connection
  nextObjId : Nat
  providerConnectCalls : Nat
  providerDisconnectCalls : Nat
deriving DecidableEq, Repr

/-- Modelled from the spec: the empty service (no providers, no
connections). -/
def emptyService : ConnectionService :=
  { catalog := [], providers := [], connections := [], nextObjId := 0,
    providerConnectCalls := 0, providerDisconnectCalls := 0 }

/-- Modelled from the spec: the provider catalog records a capability
registration for `pid` (`capabilitiesService.registerConnectionProvider`). -/
def registerCatalogProvider (svc : ConnectionService) (pid : String) : ConnectionService :=
  { svc with catalog := pid :: svc.catalog }

/-- Modelled from the spec: the capability registration for `pid` is
withdrawn (the disposable returned by the catalog registration is
disposed); subsequent `createOrGetConnection` calls naming `pid` must
fail. -/
def unregisterCatalogProvider (svc : ConnectionService) (pid : String) : ConnectionService :=
  { svc with catalog := svc.catalog.filter (fun q => q ≠ pid) }

/-- Modelled from the spec: `registerProvider` adds a provider
implementation, keyed by its declared identifier, to the internal provider
table. -/
def registerProvider (svc : ConnectionService) (pid : String) : ConnectionService :=
  { svc with providers := pid :: svc.providers }

/-- Modelled from the spec: look up the cached Connection for an
identifier. -/
def findConnection (svc : ConnectionService) (ident : String) : Option Connection :=
  svc.connections.find? (fun c => c.identifier == ident)

/-- Modelled from the spec: replace the registry's entry for
`c.identifier` by `c` (the Registry mutating the Connection it owns). -/
def updateConnection (svc : ConnectionService) (c : Connection) : ConnectionService :=
  { svc with connections :=
      svc.connections.map (fun c2 => if c2.identifier == c.identifier then c else c2) }

/-- Modelled from the spec: `createOrGetConnection(identifier, {provider,
options})`.  A cache hit returns the existing Connection unconditionally
(the arguments of the second call are ignored).  On a miss the providerId
must resolve in the provider catalog, else a synchronous validation error
is raised; otherwise a fresh Connection in state `DISCONNECTED` is
constructed, stamped with a fresh object id, stored, and returned. -/
def createOrGetConnection (svc : ConnectionService) (ident : String)
    (pid : String) (options : List (String × String)) :
    Except String (ConnectionService × Connection) :=
  match findConnection svc ident with
  | some c => .ok (svc, c)
  | none =>
    if pid ∈ svc.catalog then
      let c : Connection :=
        { objId := svc.nextObjId, identifier := ident, provider := pid,
          options := options, state := .DISCONNECTED, waiters := [], lastResult := none }
      .ok ({ svc with connections := svc.connections ++ [c], nextObjId := svc.nextObjId + 1 }, c)
    else
      .error "Provider could not be found"

/-- Modelled from the spec: `getIdForConnection(connection)` is a reverse
lookup over the registry's own Connection table, matching by object
identity (`objId`); it throws for any object that was never produced by
`createOrGetConnection`. -/
def getIdForConnection (svc : ConnectionService) (c : Connection) : Except String String :=
  match svc.connections.find? (fun c2 => c2.objId == c.objId) with
  | some c2 => .ok c2.identifier
  | none => .error "Unknown connection"

/-- Modelled from the spec: what `connect()` does synchronously: either it
resolves at once with a result (cache hit on `CONNECTED`, or the
provider's initiation call resolved to `false`), or the caller is
registered as a waiter (his local waiter id) for the pending attempt. -/
inductive ConnectOutcome
  | immediate (r : ConnectResult)
  | pending (w : Nat)
deriving DecidableEq, Repr

/-- Modelled from the spec: the synchronous part of `connect()` on the
Connection for `ident`.  `accepted` is the boolean the provider's
initiation call resolves to.  `CONNECTED`: return the last successful
result, no provider call.  `CONNECTING`: join the pending attempt as a new
waiter, no provider call.  `DISCONNECTED`: transition to `CONNECTING` and
invoke the provider's `connect`; if the initiation is rejected
(`accepted = false`) transition straight back to `DISCONNECTED` and
resolve immediately with a failed result; otherwise stay `CONNECTING`
awaiting the completion signal as waiter 0.  Behaviour during
`DISCONNECTING` is not defined by the spec. -/
def connectStart (svc : ConnectionService) (ident : String) (accepted : Bool) :
    ConnectionService × Option ConnectOutcome :=
  match findConnection svc ident with
  | none => (svc, none)
  | some c =>
    match c.state with
    | .CONNECTED =>
        (svc, some (.immediate (c.lastResult.getD { failed := false, errorMessage := none })))
    | .CONNECTING =>
        let w := c.waiters.length
        (updateConnection svc { c with waiters := c.waiters ++ [w] }, some (.pending w))
    | .DISCONNECTED =>
        let svc1 := { svc with providerConnectCalls := svc.providerConnectCalls + 1 }
        if accepted then
          (updateConnection svc1 { c with state := .CONNECTING, waiters := [0] },
           some (.pending 0))
        else
          (updateConnection svc1 { c with state := .DISCONNECTED, waiters := [] },
           some (.immediate { failed := true, errorMessage := none }))
    | .DISCONNECTING => (svc, none)

/-- Modelled from the spec: awaiting the `onDidConnect` surface of the
Connection for `ident` while a connect attempt is in flight registers the
observer as one more waiter for that attempt, without any provider call. -/
def awaitOnDidConnect (svc : ConnectionService) (ident : String) :
    ConnectionService × Option Nat :=
  match findConnection svc ident with
  | none => (svc, none)
  | some c =>
    let w := c.waiters.length
    (updateConnection svc { c with waiters := c.waiters ++ [w] }, some w)

/-- Modelled from the spec: the result a completion signal resolves the
waiters with: success when no error message is carried, `{failed: true,
errorMessage}` otherwise. -/
def signalResult (errorMessage : Option String) : ConnectResult :=
  match errorMessage with
  | none => { failed := false, errorMessage := none }
  | some m => { failed := true, errorMessage := some m }

/-- Modelled from the spec: the state a `CONNECTING` Connection lands in
when the completion signal arrives: `CONNECTED` on success,
`DISCONNECTED` on failure (a failed connect must not stay parked in
`CONNECTING`). -/
def signalState (errorMessage : Option String) : ConnectionState :=
  match errorMessage with
  | none => .CONNECTED
  | some _ => .DISCONNECTED

/-- Modelled from the spec: the provider's completion signal
`{identifier, errorMessage?}`.  If the Connection for the identifier is
currently `CONNECTING`, every waiter is resolved with one shared result:
success (`CONNECTED`) when no error message is carried, failure with that
message (`DISCONNECTED`) otherwise.  A signal whose identifier does not
match a Connection currently in `CONNECTING` is ignored. -/
def completeSignal (svc : ConnectionService) (ident : String)
    (errorMessage : Option String) :
    ConnectionService × List (Nat × ConnectResult) :=
  match findConnection svc ident with
  | none => (svc, [])
  | some c =>
    match c.state with
    | .CONNECTING =>
        (updateConnection svc
          { c with state := signalState errorMessage, waiters := [],
                   lastResult := some (signalResult errorMessage) },
         c.waiters.map (fun w => (w, signalResult errorMessage)))
    | _ => (svc, [])

/-- Modelled from the spec: `disconnect()` on the Connection for `ident`.
On `CONNECTED`: transition through `DISCONNECTING`, invoke the provider's
`disconnect` once, and on its acknowledgement land in `DISCONNECTED` (no
second asynchronous signal is awaited).  On any other state: a no-op that
succeeds trivially, with no provider call. -/
def disconnectOp (svc : ConnectionService) (ident : String) : ConnectionService :=
  match findConnection svc ident with
  | none => svc
  | some c =>
    if c.state = .CONNECTED then
      let svc1 := { svc with providerDisconnectCalls := svc.providerDisconnectCalls + 1 }
      updateConnection svc1 { c with state := .DISCONNECTED }
    else
      svc

end ConnService

namespace DataSourceTree

/-- From `baseTreeItem.ts` (as used by `dataSourceTreeItem.ts`): a
`MessageTreeItem` carries a message string. -/
structure MessageTreeItem where
  message : String
deriving DecidableEq, Repr

/-- From `sqlConnectionStringSource.ts` (as consumed by
`dataSourceTreeItem.ts`): a SQL connection string data source with its
named connection-string components.  A JavaScript object's string keys
are unique; the components are embedded as an association list whose
well-formed instances have `Nodup` keys. -/
structure SqlConnectionDataSource where
  name : String
  connectionStringComponents : List (String × String)
deriving DecidableEq, Repr

/-- The keys of `connectionStringComponents` (`Object.keys`). -/
def componentKeys (ds : SqlConnectionDataSource) : List String :=
  ds.connectionStringComponents.map Prod.fst

/-- Indexing `connectionStringComponents[comp]`. -/
def componentValue (ds : SqlConnectionDataSource) (comp : String) : String :=
  (ds.connectionStringComponents.lookup comp).getD ""

/-- The message built for one component:
`comp ++ ": " ++ connectionStringComponents[comp]`. -/
def componentMessage (ds : SqlConnectionDataSource) (comp : String) : MessageTreeItem :=
  { message := comp ++ ": " ++ componentValue ds comp }

/-- From `dataSourceTreeItem.ts`, `SqlConnectionDataSourceTreeItem.children`:
one `MessageTreeItem` per connection-string component, iterating
`Object.keys(...).sort()` (JavaScript's default sort on the key strings,
embedded as insertion sort by the lexicographic order on `String`). -/
def children (ds : SqlConnectionDataSource) : List MessageTreeItem :=
  (List.insertionSort (fun a b => a ≤ b) (componentKeys ds)).map
    (fun comp => componentMessage ds comp)

/-- A sample data source whose components are stored out of
alphabetical order. -/
def sampleSource : SqlConnectionDataSource :=
  { name := "ds",
    connectionStringComponents := [("server", "s"), ("database", "d"), ("authentication", "a")] }

/-- The same components stored in reversed order. -/
def sampleSourceReordered : SqlConnectionDataSource :=
  { name := "ds",
    connectionStringComponents := [("authentication", "a"), ("database", "d"), ("server", "s")] }

end DataSourceTree

namespace ConnService

/-- The provider id used by the test suite (`TestConnectionProvider.ID`). -/
def testProviderId : String := "testConnectionProvider"

/-- The connection options used by the test suite (`basicOptions`). -/
def basicOptions : List (String × String) :=
  [("serverName", "testServer"), ("databaseName", "testdatabase"),
   ("userName", "testuser"), ("password", "testpassword")]

/-- The service produced by the test suite's `createService`: the provider
registered both in the capabilities catalog and in the service's provider
table. -/
def testService : ConnectionService :=
  registerProvider (registerCatalogProvider emptyService testProviderId) testProviderId

/-- The Connection that `createOrGetConnection testService "someuri"
testProviderId basicOptions` constructs. -/
def someuriConn : Connection :=
  { objId := 0, identifier := "someuri", provider := testProviderId,
    options := basicOptions, state := .DISCONNECTED, waiters := [], lastResult := none }

/-- The test service after `someuriConn` was created. -/
def testServiceWithConn : ConnectionService :=
  { testService with connections := [someuriConn], nextObjId := 1 }

/-- The second Connection the test suite creates, under identifier
`someuri2`. -/
def someuri2Conn : Connection :=
  { objId := 1, identifier := "someuri2", provider := testProviderId,
    options := basicOptions, state := .DISCONNECTED, waiters := [], lastResult := none }

/-- The test service holding both `someuri` and `someuri2` connections. -/
def testServiceTwoConns : ConnectionService :=
  { testService with connections := [someuriConn, someuri2Conn], nextObjId := 2 }

/-- The test connection after a successful connect cycle. -/
def connectedConn : Connection :=
  { someuriConn with state := .CONNECTED,
                     lastResult := some { failed := false, errorMessage := none } }

/-- The test service after a successful connect cycle on `someuri`. -/
def testServiceConnected : ConnectionService :=
  { testService with connections := [connectedConn], nextObjId := 1 }

/-- Registry invariant: object-identity stamps are pairwise distinct and
below the allocation counter (every service reachable from
`emptyService` satisfies it). -/
def objIdsOk (svc : ConnectionService) : Prop :=
  (svc.connections.map Connection.objId).Nodup ∧
  ∀ c ∈ svc.connections, c.objId < svc.nextObjId

instance (svc : ConnectionService) : Decidable (objIdsOk svc) := by
  unfold objIdsOk; infer_instance

/-- The ad-hoc object of the test suite's `fakeConnection`: it satisfies
the Connection capability surface but was never produced by the
registry (its identity stamp matches no registry object). -/
def fakeConnection : Connection :=
  { objId := 99, identifier := "", provider := "provider", options := [],
    state := .CONNECTED, waiters := [], lastResult := none }

theorem findConnection_identifier {svc : ConnectionService} {ident : String} {c : Connection}
    (h : findConnection svc ident = some c) : c.identifier = ident := by
  simp only [findConnection] at h
  have h2 := List.find?_some (p := fun x : Connection => x.identifier == ident) h
  exact eq_of_beq h2

theorem find?_map_update (ident : String) (c : Connection) (hc : c.identifier = ident) :
    ∀ l : List Connection,
      (l.find? (fun x => x.identifier == ident)).isSome = true →
      (l.map (fun c2 => if c2.identifier == c.identifier then c else c2)).find?
        (fun x => x.identifier == ident) = some c := by
  intro l
  induction l with
  | nil => intro h; simp at h
  | cons a t ih =>
    intro h
    by_cases ha : a.identifier = ident
    · have h1 : (a.identifier == c.identifier) = true := by
        rw [hc]; exact beq_iff_eq.mpr ha
      have h2 : (c.identifier == ident) = true := beq_iff_eq.mpr hc
      simp only [List.map, h1, if_true]
      simp [List.find?_cons_of_pos, h2]
    · have h1 : (a.identifier == c.identifier) = false := by
        rw [hc]; exact beq_eq_false_iff_ne.mpr ha
      have h2 : (a.identifier == ident) = false := beq_eq_false_iff_ne.mpr ha
      simp only [List.map, h1, Bool.false_eq_true, if_false]
      rw [List.find?_cons_of_neg]
      · apply ih
        rw [List.find?_cons_of_neg] at h
        · exact h
        · simp [h2]
      · simp [h2]

theorem findConnection_updateConnection {svc : ConnectionService} {ident : String}
    (c : Connection) (hsome : (findConnection svc ident).isSome = true)
    (hc : c.identifier = ident) :
    findConnection (updateConnection svc c) ident = some c :=
  find?_map_update ident c hc svc.connections hsome

theorem connectStart_disconnected_accepted {svc : ConnectionService} {ident : String}
    {c : Connection} (hfind : findConnection svc ident = some c)
    (hstate : c.state = .DISCONNECTED) :
    connectStart svc ident true =
      (updateConnection { svc with providerConnectCalls := svc.providerConnectCalls + 1 }
         { c with state := .CONNECTING, waiters := [0] },
       some (.pending 0)) := by
  unfold connectStart
  rw [hfind]
  simp only [hstate]
  simp

theorem connectStart_disconnected_rejected {svc : ConnectionService} {ident : String}
    {c : Connection} (hfind : findConnection svc ident = some c)
    (hstate : c.state = .DISCONNECTED) :
    connectStart svc ident false =
      (updateConnection { svc with providerConnectCalls := svc.providerConnectCalls + 1 }
         { c with state := .DISCONNECTED, waiters := [] },
       some (.immediate { failed := true, errorMessage := none })) := by
  unfold connectStart
  rw [hfind]
  simp only [hstate]
  simp

theorem connectStart_connecting {svc : ConnectionService} {ident : String}
    {c : Connection} (b : Bool) (hfind : findConnection svc ident = some c)
    (hstate : c.state = .CONNECTING) :
    connectStart svc ident b =
      (updateConnection svc { c with waiters := c.waiters ++ [c.waiters.length] },
       some (.pending c.waiters.length)) := by
  unfold connectStart
  rw [hfind]
  simp only [hstate]

theorem connectStart_connected {svc : ConnectionService} {ident : String}
    {c : Connection} (b : Bool) (hfind : findConnection svc ident = some c)
    (hstate : c.state = .CONNECTED) :
    connectStart svc ident b =
      (svc, some (.immediate (c.lastResult.getD { failed := false, errorMessage := none }))) := by
  unfold connectStart
  rw [hfind]
  simp only [hstate]

theorem awaitOnDidConnect_found {svc : ConnectionService} {ident : String}
    {c : Connection} (hfind : findConnection svc ident = some c) :
    awaitOnDidConnect svc ident =
      (updateConnection svc { c with waiters := c.waiters ++ [c.waiters.length] },
       some c.waiters.length) := by
  unfold awaitOnDidConnect
  rw [hfind]

theorem completeSignal_connecting {svc : ConnectionService} {ident : String}
    {c : Connection} (em : Option String) (hfind : findConnection svc ident = some c)
    (hstate : c.state = .CONNECTING) :
    completeSignal svc ident em =
      (updateConnection svc
        { c with state := signalState em, waiters := [],
                 lastResult := some (signalResult em) },
       c.waiters.map (fun w => (w, signalResult em))) := by
  unfold completeSignal
  rw [hfind]
  simp only [hstate]

theorem disconnectOp_connected {svc : ConnectionService} {ident : String}
    {c : Connection} (hfind : findConnection svc ident = some c)
    (hstate : c.state = .CONNECTED) :
    disconnectOp svc ident =
      updateConnection { svc with providerDisconnectCalls := svc.providerDisconnectCalls + 1 }
        { c with state := .DISCONNECTED } := by
  unfold disconnectOp
  rw [hfind]
  simp only [hstate]
  simp

theorem disconnectOp_not_connected {svc : ConnectionService} {ident : String}
    {c : Connection} (hfind : findConnection svc ident = some c)
    (hstate : c.state ≠ .CONNECTED) :
    disconnectOp svc ident = svc := by
  unfold disconnectOp
  rw [hfind]
  simp [hstate]

theorem findConnection_bumpConnect (svc : ConnectionService) (n : Nat) (ident : String) :
    findConnection { svc with providerConnectCalls := n } ident = findConnection svc ident :=
  rfl

/-- C3: for every Connection in state `DISCONNECTED`, if the provider's
connect initiation call resolves to `false`, `connect()` resolves
immediately (outcome `immediate`, not a pending waiter awaiting a
completion signal) with a failed result, and the Connection's state is
`DISCONNECTED` afterwards. -/
theorem connect_initiation_rejected {svc : ConnectionService} {ident : String}
    {c : Connection} (hfind : findConnection svc ident = some c)
    (hstate : c.state = .DISCONNECTED) :
    (connectStart svc ident false).2 =
      some (.immediate { failed := true, errorMessage := none }) ∧
    ∃ c2, findConnection (connectStart svc ident false).1 ident = some c2 ∧
      c2.state = .DISCONNECTED := by
  have hid := findConnection_identifier hfind
  rw [connectStart_disconnected_rejected hfind hstate]
  refine ⟨rfl, { c with state := .DISCONNECTED, waiters := [] }, ?_, rfl⟩
  apply findConnection_updateConnection
  · rw [findConnection_bumpConnect, hfind]
    rfl
  · exact hid

/-- Witness for C3 at the test suite's scenario. -/
theorem connect_initiation_rejected_witness :
    (connectStart testServiceWithConn "someuri" false).2 =
      some (.immediate { failed := true, errorMessage := none }) ∧
    ∃ c2, findConnection (connectStart testServiceWithConn "someuri" false).1 "someuri" = some c2 ∧
      c2.state = .DISCONNECTED :=
  @connect_initiation_rejected testServiceWithConn "someuri" someuriConn (by decide) (by decide)

theorem findConnection_bumpDisconnect (svc : ConnectionService) (n : Nat) (ident : String) :
    findConnection { svc with providerDisconnectCalls := n } ident = findConnection svc ident :=
  rfl

theorem createOrGet_ok_find {svc : ConnectionService} {u p : String}
    {o : List (String × String)} {svc1 : ConnectionService} {c1 : Connection}
    (h : createOrGetConnection svc u p o = .ok (svc1, c1)) :
    findConnection svc1 u = some c1 := by
  unfold createOrGetConnection at h
  cases hf : findConnection svc u with
  | some c =>
    rw [hf] at h
    simp only [Except.ok.injEq, Prod.mk.injEq] at h
    obtain ⟨h1, h2⟩ := h
    subst h1; subst h2
    exact hf
  | none =>
    rw [hf] at h
    by_cases hp : p ∈ svc.catalog
    · rw [if_pos hp] at h
      simp only [Except.ok.injEq, Prod.mk.injEq] at h
      obtain ⟨h1, h2⟩ := h
      subst h1; subst h2
      show (svc.connections ++ [_]).find? _ = _
      rw [List.find?_append]
      unfold findConnection at hf
      rw [hf]
      simp
    · rw [if_neg hp] at h
      exact absurd h (by simp)

theorem createOrGet_ok_identifier {svc : ConnectionService} {u p : String}
    {o : List (String × String)} {svc1 : ConnectionService} {c1 : Connection}
    (h : createOrGetConnection svc u p o = .ok (svc1, c1)) :
    c1.identifier = u :=
  findConnection_identifier (createOrGet_ok_find h)

/-- C2: for every Connection in state `DISCONNECTED` whose connect
attempt is accepted by the provider, a completion signal carrying an
`errorMessage` resolves the caller's pending `connect()` with
`{failed: true, errorMessage}` (the same message) and leaves the
Connection in state `DISCONNECTED`, not `CONNECTING`. -/
theorem connect_failure_signal {svc : ConnectionService} {ident : String}
    {c : Connection} (msg : String)
    (hfind : findConnection svc ident = some c)
    (hstate : c.state = .DISCONNECTED) :
    (connectStart svc ident true).2 = some (.pending 0) ∧
    (0, { failed := true, errorMessage := some msg }) ∈
      (completeSignal (connectStart svc ident true).1 ident (some msg)).2 ∧
    ∃ c2, findConnection (completeSignal (connectStart svc ident true).1 ident (some msg)).1 ident
        = some c2 ∧ c2.state = .DISCONNECTED := by
  have hid := findConnection_identifier hfind
  have h1 := connectStart_disconnected_accepted hfind hstate
  have hfind1 : findConnection
      (updateConnection { svc with providerConnectCalls := svc.providerConnectCalls + 1 }
        { c with state := .CONNECTING, waiters := [0] }) ident =
      some { c with state := .CONNECTING, waiters := [0] } := by
    apply findConnection_updateConnection
    · rw [findConnection_bumpConnect, hfind]; rfl
    · exact hid
  have h2 := completeSignal_connecting (some msg) hfind1 rfl
  rw [h1]
  rw [h2]
  refine ⟨rfl, ?_, ?_⟩
  · simp [signalResult]
  · refine ⟨_, findConnection_updateConnection _ ?_ hid, rfl⟩
    rw [hfind1]; rfl

/-- Witness for C2 at the test suite's scenario (error message
`some random error message`). -/
theorem connect_failure_signal_witness :
    (connectStart testServiceWithConn "someuri" true).2 = some (.pending 0) ∧
    (0, { failed := true, errorMessage := some "some random error message" }) ∈
      (completeSignal (connectStart testServiceWithConn "someuri" true).1 "someuri"
        (some "some random error message")).2 ∧
    ∃ c2, findConnection (completeSignal (connectStart testServiceWithConn "someuri" true).1
        "someuri" (some "some random error message")).1 "someuri" = some c2 ∧
      c2.state = .DISCONNECTED :=
  @connect_failure_signal testServiceWithConn "someuri" someuriConn
    "some random error message" (by decide) (by decide)

/-- C1: for every fresh Connection in state `DISCONNECTED`, two
`connect()` calls issued concurrently (the second before the first has
resolved) cause exactly one provider connect invocation; both callers
become waiters of the same attempt and, when the completion signal
arrives, both awaited results are value-equal. -/
theorem connect_concurrent_dedup {svc : ConnectionService} {ident : String}
    {c : Connection} (em : Option String)
    (hfind : findConnection svc ident = some c)
    (hstate : c.state = .DISCONNECTED) :
    (connectStart svc ident true).2 = some (.pending 0) ∧
    (connectStart (connectStart svc ident true).1 ident true).2 = some (.pending 1) ∧
    (connectStart (connectStart svc ident true).1 ident true).1.providerConnectCalls
        = svc.providerConnectCalls + 1 ∧
    ∃ r, (0, r) ∈ (completeSignal
            (connectStart (connectStart svc ident true).1 ident true).1 ident em).2 ∧
         (1, r) ∈ (completeSignal
            (connectStart (connectStart svc ident true).1 ident true).1 ident em).2 := by
  have hid := findConnection_identifier hfind
  have h1 := connectStart_disconnected_accepted hfind hstate
  have hfind1 : findConnection
      (updateConnection { svc with providerConnectCalls := svc.providerConnectCalls + 1 }
        { c with state := .CONNECTING, waiters := [0] }) ident =
      some { c with state := .CONNECTING, waiters := [0] } := by
    apply findConnection_updateConnection
    · rw [findConnection_bumpConnect, hfind]; rfl
    · exact hid
  have h2 := connectStart_connecting true hfind1 rfl
  have hfind2 : findConnection
      (updateConnection
        (updateConnection { svc with providerConnectCalls := svc.providerConnectCalls + 1 }
          { c with state := .CONNECTING, waiters := [0] })
        { c with state := .CONNECTING, waiters := [0, 1] }) ident =
      some { c with state := .CONNECTING, waiters := [0, 1] } := by
    apply findConnection_updateConnection
    · rw [hfind1]; rfl
    · exact hid
  have h3 := completeSignal_connecting em hfind2 rfl
  rw [h1]
  rw [show ({ c with state := ConnectionState.CONNECTING, waiters := [0] } : Connection).waiters
        ++ [({ c with state := ConnectionState.CONNECTING, waiters := [0] } : Connection).waiters.length]
      = [0, 1] from rfl] at h2
  rw [h2]
  rw [h3]
  refine ⟨rfl, rfl, rfl, signalResult em, ?_, ?_⟩ <;> simp

/-- Witness for C1 at the test suite's scenario (successful completion). -/
theorem connect_concurrent_dedup_witness :
    (connectStart testServiceWithConn "someuri" true).2 = some (.pending 0) ∧
    (connectStart (connectStart testServiceWithConn "someuri" true).1 "someuri" true).2
        = some (.pending 1) ∧
    (connectStart (connectStart testServiceWithConn "someuri" true).1 "someuri"
        true).1.providerConnectCalls = testServiceWithConn.providerConnectCalls + 1 ∧
    ∃ r, (0, r) ∈ (completeSignal (connectStart (connectStart testServiceWithConn "someuri"
            true).1 "someuri" true).1 "someuri" none).2 ∧
         (1, r) ∈ (completeSignal (connectStart (connectStart testServiceWithConn "someuri"
            true).1 "someuri" true).1 "someuri" none).2 :=
  @connect_concurrent_dedup testServiceWithConn "someuri" someuriConn none
    (by decide) (by decide)

/-- C8: for every Connection starting a connect attempt, an observer who
never called `connect()` themselves but awaits the `onDidConnect` surface
is resolved by the attempt's completion signal, with content equal to the
result the `connect()` caller receives for that same attempt. -/
theorem onDidConnect_observer {svc : ConnectionService} {ident : String}
    {c : Connection} (em : Option String)
    (hfind : findConnection svc ident = some c)
    (hstate : c.state = .DISCONNECTED) :
    (connectStart svc ident true).2 = some (.pending 0) ∧
    (awaitOnDidConnect (connectStart svc ident true).1 ident).2 = some 1 ∧
    ∃ r, (0, r) ∈ (completeSignal
            (awaitOnDidConnect (connectStart svc ident true).1 ident).1 ident em).2 ∧
         (1, r) ∈ (completeSignal
            (awaitOnDidConnect (connectStart svc ident true).1 ident).1 ident em).2 := by
  have hid := findConnection_identifier hfind
  have h1 := connectStart_disconnected_accepted hfind hstate
  have hfind1 : findConnection
      (updateConnection { svc with providerConnectCalls := svc.providerConnectCalls + 1 }
        { c with state := .CONNECTING, waiters := [0] }) ident =
      some { c with state := .CONNECTING, waiters := [0] } := by
    apply findConnection_updateConnection
    · rw [findConnection_bumpConnect, hfind]; rfl
    · exact hid
  have h2 := awaitOnDidConnect_found hfind1
  have hfind2 : findConnection
      (updateConnection
        (updateConnection { svc with providerConnectCalls := svc.providerConnectCalls + 1 }
          { c with state := .CONNECTING, waiters := [0] })
        { c with state := .CONNECTING, waiters := [0, 1] }) ident =
      some { c with state := .CONNECTING, waiters := [0, 1] } := by
    apply findConnection_updateConnection
    · rw [hfind1]; rfl
    · exact hid
  have h3 := completeSignal_connecting em hfind2 rfl
  rw [h1]
  rw [show ({ c with state := ConnectionState.CONNECTING, waiters := [0] } : Connection).waiters
        ++ [({ c with state := ConnectionState.CONNECTING, waiters := [0] } : Connection).waiters.length]
      = [0, 1] from rfl] at h2
  rw [h2]
  rw [h3]
  refine ⟨rfl, rfl, signalResult em, ?_, ?_⟩ <;> simp

/-- Witness for C8 at the test suite's scenario. -/
theorem onDidConnect_observer_witness :
    (connectStart testServiceWithConn "someuri" true).2 = some (.pending 0) ∧
    (awaitOnDidConnect (connectStart testServiceWithConn "someuri" true).1 "someuri").2
        = some 1 ∧
    ∃ r, (0, r) ∈ (completeSignal (awaitOnDidConnect (connectStart testServiceWithConn
            "someuri" true).1 "someuri").1 "someuri" none).2 ∧
         (1, r) ∈ (completeSignal (awaitOnDidConnect (connectStart testServiceWithConn
            "someuri" true).1 "someuri").1 "someuri" none).2 :=
  @onDidConnect_observer testServiceWithConn "someuri" someuriConn none
    (by decide) (by decide)

/-- C6: for every Connection in state `CONNECTED` with prior result `r`,
a further `connect()` call leaves the service untouched (in particular it
does not invoke the provider again) and resolves immediately with a
result value-equal to `r`. -/
theorem connect_already_connected {svc : ConnectionService} {ident : String}
    {c : Connection} {r : ConnectResult} (b : Bool)
    (hfind : findConnection svc ident = some c)
    (hstate : c.state = .CONNECTED) (hlast : c.lastResult = some r) :
    connectStart svc ident b = (svc, some (.immediate r)) ∧
    (connectStart svc ident b).1.providerConnectCalls = svc.providerConnectCalls := by
  have h := connectStart_connected b hfind hstate
  rw [hlast] at h
  exact ⟨h, by rw [h]⟩

/-- C4: for every identifier `u`, once `createOrGetConnection` has
returned a Connection for `u`, any further call for `u` — whatever its
provider/options arguments — returns the identical Connection object and
leaves the service unchanged; and a call for a distinct identifier
`u2 ≠ u` returns a distinct Connection object. -/
theorem createOrGet_idempotent_distinct {svc : ConnectionService} {u p1 : String}
    {o1 : List (String × String)} {svc1 : ConnectionService} {c1 : Connection}
    (p2 : String) (o2 : List (String × String))
    {u2 p3 : String} {o3 : List (String × String)} {svc2 : ConnectionService} {c2 : Connection}
    (h : createOrGetConnection svc u p1 o1 = .ok (svc1, c1))
    (hne : u ≠ u2)
    (h2 : createOrGetConnection svc1 u2 p3 o3 = .ok (svc2, c2)) :
    createOrGetConnection svc1 u p2 o2 = .ok (svc1, c1) ∧ c1 ≠ c2 := by
  have hfind := createOrGet_ok_find h
  constructor
  · unfold createOrGetConnection
    rw [hfind]
  · intro hcc
    have e1 := createOrGet_ok_identifier h
    have e2 := createOrGet_ok_identifier h2
    apply hne
    rw [← e1, ← e2, hcc]

/-- Witness for C4: the second call for `someuri` (even with a bogus
provider id and empty options) hands back the cached Connection, and the
Connection for `someuri2` is a different object. -/
theorem createOrGet_idempotent_distinct_witness :
    createOrGetConnection testServiceWithConn "someuri" "bogusProvider" [] =
      .ok (testServiceWithConn, someuriConn) ∧ someuriConn ≠ someuri2Conn :=
  @createOrGet_idempotent_distinct testService "someuri" testProviderId basicOptions
    testServiceWithConn someuriConn "bogusProvider" [] "someuri2" testProviderId basicOptions
    testServiceTwoConns someuri2Conn rfl (by decide) rfl

/-- C7: `disconnect()` on a `CONNECTED` Connection invokes the provider's
disconnect exactly once and leaves the Connection in state
`DISCONNECTED`; on a Connection in any other state it is a no-op (the
service, and so the provider call count, is unchanged) that succeeds
trivially. -/
theorem disconnect_behavior {svc : ConnectionService} {ident : String} {c : Connection}
    (hfind : findConnection svc ident = some c) :
    (c.state = .CONNECTED →
      (disconnectOp svc ident).providerDisconnectCalls = svc.providerDisconnectCalls + 1 ∧
      ∃ c2, findConnection (disconnectOp svc ident) ident = some c2 ∧
        c2.state = .DISCONNECTED) ∧
    (c.state ≠ .CONNECTED → disconnectOp svc ident = svc) := by
  have hid := findConnection_identifier hfind
  constructor
  · intro hstate
    rw [disconnectOp_connected hfind hstate]
    refine ⟨rfl, _, findConnection_updateConnection _ ?_ hid, rfl⟩
    rw [findConnection_bumpDisconnect, hfind]; rfl
  · intro h
    exact disconnectOp_not_connected hfind h

/-- Witness for C7: disconnecting the connected test connection counts
one provider disconnect call and lands in `DISCONNECTED`; disconnecting
the disconnected test connection leaves the service untouched. -/
theorem disconnect_behavior_witness :
    (disconnectOp testServiceConnected "someuri").providerDisconnectCalls =
        testServiceConnected.providerDisconnectCalls + 1 ∧
    (∃ c2, findConnection (disconnectOp testServiceConnected "someuri") "someuri" = some c2 ∧
        c2.state = .DISCONNECTED) ∧
    disconnectOp testServiceWithConn "someuri" = testServiceWithConn :=
  ⟨((@disconnect_behavior testServiceConnected "someuri" connectedConn (by decide)).1
      (by decide)).1,
   ((@disconnect_behavior testServiceConnected "someuri" connectedConn (by decide)).1
      (by decide)).2,
   (@disconnect_behavior testServiceWithConn "someuri" someuriConn (by decide)).2
      (by decide)⟩

/-- Witness for C6: connecting an already-connected connection of the
test scenario is a pure cache hit. -/
theorem connect_already_connected_witness :
    connectStart testServiceConnected "someuri" true =
      (testServiceConnected, some (.immediate { failed := false, errorMessage := none })) ∧
    (connectStart testServiceConnected "someuri" true).1.providerConnectCalls =
      testServiceConnected.providerConnectCalls :=
  @connect_already_connected testServiceConnected "someuri" connectedConn
    { failed := false, errorMessage := none } true (by decide) (by decide) (by decide)

/-- C5: registering a provider (catalog and service) and then withdrawing
its catalog registration makes any later `createOrGetConnection` naming
that provider for a not-yet-cached identifier fail synchronously with a
validation error. -/
theorem createOrGet_revoked_provider_fails (svc0 : ConnectionService) (p u : String)
    (o : List (String × String))
    (hnc : findConnection
        (unregisterCatalogProvider (registerProvider (registerCatalogProvider svc0 p) p) p) u
        = none) :
    createOrGetConnection
        (unregisterCatalogProvider (registerProvider (registerCatalogProvider svc0 p) p) p)
        u p o = .error "Provider could not be found" := by
  unfold createOrGetConnection
  rw [hnc]
  rw [if_neg]
  intro hmem
  have h2 := List.of_mem_filter hmem
  simp at h2

/-- Witness for C5 at the test suite's scenario (`testProvider2`
registered, then its capability registration disposed). -/
theorem createOrGet_revoked_provider_fails_witness :
    createOrGetConnection
        (unregisterCatalogProvider
          (registerProvider (registerCatalogProvider emptyService "testProvider2")
            "testProvider2") "testProvider2")
        "someuri" "testProvider2" basicOptions = .error "Provider could not be found" :=
  createOrGet_revoked_provider_fails emptyService "testProvider2" "someuri" basicOptions
    (by decide)

theorem createOrGet_preserves_objIdsOk {svc : ConnectionService} {u p : String}
    {o : List (String × String)} {svc1 : ConnectionService} {c1 : Connection}
    (hwf : objIdsOk svc) (h : createOrGetConnection svc u p o = .ok (svc1, c1)) :
    objIdsOk svc1 := by
  unfold createOrGetConnection at h
  cases hf : findConnection svc u with
  | some c =>
    rw [hf] at h
    simp only [Except.ok.injEq, Prod.mk.injEq] at h
    obtain ⟨h1, _⟩ := h
    subst h1
    exact hwf
  | none =>
    rw [hf] at h
    by_cases hp : p ∈ svc.catalog
    · rw [if_pos hp] at h
      simp only [Except.ok.injEq, Prod.mk.injEq] at h
      obtain ⟨h1, _⟩ := h
      subst h1
      obtain ⟨hnd, hlt⟩ := hwf
      constructor
      · show ((svc.connections ++ [_]).map Connection.objId).Nodup
        rw [List.map_append, List.nodup_append]
        refine ⟨hnd, List.nodup_singleton _, ?_⟩
        intro a ha hb
        simp only [List.map_cons, List.map_nil, List.mem_singleton] at hb
        obtain ⟨x, hx, hxa⟩ := List.mem_map.mp ha
        subst hb
        exact absurd hxa (Nat.ne_of_lt (hlt x hx))
      · intro c hc
        rw [List.mem_append] at hc
        cases hc with
        | inl hin => exact Nat.lt_succ_of_lt (hlt c hin)
        | inr hin =>
          rw [List.mem_singleton] at hin
          subst hin
          exact Nat.lt_succ_self _
    · rw [if_neg hp] at h
      exact absurd h (by simp)

theorem find?_objId_self {l : List Connection} {c1 : Connection}
    (hnd : (l.map Connection.objId).Nodup) (hmem : c1 ∈ l) :
    l.find? (fun c2 => c2.objId == c1.objId) = some c1 := by
  have hsome : (l.find? (fun c2 => c2.objId == c1.objId)).isSome := by
    rw [List.find?_isSome]
    exact ⟨c1, hmem, by simp⟩
  obtain ⟨c3, hc3⟩ := Option.isSome_iff_exists.mp hsome
  have hpc := List.find?_some (p := fun c2 : Connection => c2.objId == c1.objId) hc3
  have hmem3 := List.mem_of_find?_eq_some hc3
  have he : c3 = c1 := List.inj_on_of_nodup_map hnd hmem3 hmem (eq_of_beq hpc)
  rw [hc3, he]

/-- C9: `getIdForConnection` returns the identifier under which a
registry-owned Connection was created, and fails with an error for every
object that merely satisfies the Connection surface but was never
produced by `createOrGetConnection` (its object identity matches no
registry entry). -/
theorem getIdForConnection_ok_and_guard {svc : ConnectionService} {u p : String}
    {o : List (String × String)} {svc1 : ConnectionService} {c1 : Connection}
    (fake : Connection) (hwf : objIdsOk svc)
    (h : createOrGetConnection svc u p o = .ok (svc1, c1))
    (hfake : ∀ c2 ∈ svc1.connections, c2.objId ≠ fake.objId) :
    getIdForConnection svc1 c1 = .ok u ∧
    getIdForConnection svc1 fake = .error "Unknown connection" := by
  have hwf1 := createOrGet_preserves_objIdsOk hwf h
  have hfind := createOrGet_ok_find h
  have hu := createOrGet_ok_identifier h
  have hmem : c1 ∈ svc1.connections := by
    unfold findConnection at hfind
    exact List.mem_of_find?_eq_some hfind
  constructor
  · unfold getIdForConnection
    rw [find?_objId_self hwf1.1 hmem]
    show Except.ok c1.identifier = Except.ok u
    rw [hu]
  · unfold getIdForConnection
    have hnone : svc1.connections.find? (fun c2 => c2.objId == fake.objId) = none := by
      rw [List.find?_eq_none]
      intro x hx hbeq
      exact hfake x hx (eq_of_beq hbeq)
    rw [hnone]

/-- Witness for C9 at the test suite's scenario: the Connection created
for `someuri` maps back to `someuri`, and the test's `fakeConnection` is
rejected. -/
theorem getIdForConnection_ok_and_guard_witness :
    getIdForConnection testServiceWithConn someuriConn = .ok "someuri" ∧
    getIdForConnection testServiceWithConn fakeConnection = .error "Unknown connection" :=
  @getIdForConnection_ok_and_guard testService "someuri" testProviderId basicOptions
    testServiceWithConn someuriConn fakeConnection (by decide) rfl (by decide)

end ConnService

namespace DataSourceTree

theorem lookup_some_mem {l : List (String × String)} {k : String} {v : String}
    (h : l.lookup k = some v) : (k, v) ∈ l := by
  induction l with
  | nil => simp at h
  | cons a t ih =>
    obtain ⟨k2, v2⟩ := a
    rw [List.lookup_cons] at h
    by_cases hk : k = k2
    · have hb : (k == k2) = true := beq_iff_eq.mpr hk
      rw [hb] at h
      simp only [Option.some.injEq] at h
      subst h; subst hk
      exact List.mem_cons_self _ _
    · have hb : (k == k2) = false := beq_eq_false_iff_ne.mpr hk
      rw [hb] at h
      exact List.mem_cons_of_mem _ (ih h)

theorem lookup_eq_some_of_mem {l : List (String × String)} {k : String} {v : String}
    (hnd : (l.map Prod.fst).Nodup) (hmem : (k, v) ∈ l) : l.lookup k = some v := by
  induction l with
  | nil => simp at hmem
  | cons a t ih =>
    obtain ⟨k2, v2⟩ := a
    rw [List.lookup_cons]
    rw [List.map_cons, List.nodup_cons] at hnd
    rcases List.mem_cons.mp hmem with hh | ht
    · obtain ⟨hk, hv⟩ := Prod.mk.injEq .. ▸ hh
      subst hk; subst hv
      simp
    · have hk : k ≠ k2 := by
        intro he
        subst he
        exact hnd.1 (List.mem_map.mpr ⟨(k, v), ht, rfl⟩)
      have hb : (k == k2) = false := beq_eq_false_iff_ne.mpr hk
      rw [hb]
      exact ih hnd.2 ht

theorem lookup_perm {l1 l2 : List (String × String)} (hp : l1.Perm l2)
    (hnd : (l1.map Prod.fst).Nodup) (k : String) :
    l1.lookup k = l2.lookup k := by
  have hnd2 : (l2.map Prod.fst).Nodup := ((hp.map Prod.fst).nodup_iff).mp hnd
  cases hl : l1.lookup k with
  | some v =>
    have hm2 : (k, v) ∈ l2 := hp.mem_iff.mp (lookup_some_mem hl)
    rw [lookup_eq_some_of_mem hnd2 hm2]
  | none =>
    cases hl2 : l2.lookup k with
    | none => rfl
    | some v =>
      have hm1 : (k, v) ∈ l1 := hp.mem_iff.mpr (lookup_some_mem hl2)
      rw [lookup_eq_some_of_mem hnd hm1] at hl
      exact absurd hl (by simp)

/-- C10: the `children` getter of a SQL connection data-source tree item
returns exactly one `MessageTreeItem` per connection-string component
(the items are the image of a permutation `ks` of the component keys, so
their count equals the component count), the items appear in ascending
lexicographic order of the component keys, and the result is the same
whatever order the components were stored in (`children ds2 = children
ds` for any reordering `ds2` of the same components). -/
theorem children_one_item_per_component_sorted (ds ds2 : SqlConnectionDataSource)
    (hnd : (componentKeys ds).Nodup)
    (hp : ds2.connectionStringComponents.Perm ds.connectionStringComponents) :
    ∃ ks : List String,
      ks.Perm (componentKeys ds) ∧
      List.Sorted (fun a b : String => a ≤ b) ks ∧
      children ds = ks.map (componentMessage ds) ∧
      (children ds).length = ds.connectionStringComponents.length ∧
      children ds2 = children ds := by
  refine ⟨List.insertionSort (fun a b : String => a ≤ b) (componentKeys ds),
    List.perm_insertionSort _ _, List.sorted_insertionSort _ _, rfl, ?_, ?_⟩
  · unfold children
    rw [List.length_map, (List.perm_insertionSort _ _).length_eq]
    unfold componentKeys
    rw [List.length_map]
  · have hkp : (componentKeys ds2).Perm (componentKeys ds) := hp.map Prod.fst
    have hks : List.insertionSort (fun a b : String => a ≤ b) (componentKeys ds2)
        = List.insertionSort (fun a b : String => a ≤ b) (componentKeys ds) :=
      List.eq_of_perm_of_sorted
        ((List.perm_insertionSort _ _).trans
          (hkp.trans (List.perm_insertionSort _ _).symm))
        (List.sorted_insertionSort _ _) (List.sorted_insertionSort _ _)
    have hmsg : componentMessage ds2 = componentMessage ds := by
      funext k
      unfold componentMessage componentValue
      rw [lookup_perm hp (((hkp.nodup_iff).mpr hnd)) k]
    unfold children
    rw [hks, hmsg]

/-- Witness for C10: three components stored out of order (and the same
three stored reversed) both render as the alphabetically sorted
key-value messages. -/
theorem children_one_item_per_component_sorted_witness :
    ∃ ks : List String,
      ks.Perm (componentKeys sampleSource) ∧
      List.Sorted (fun a b : String => a ≤ b) ks ∧
      children sampleSource = ks.map (componentMessage sampleSource) ∧
      (children sampleSource).length = sampleSource.connectionStringComponents.length ∧
      children sampleSourceReordered = children sampleSource :=
  children_one_item_per_component_sorted sampleSource sampleSourceReordered
    (by decide) (by decide)

end DataSourceTree
